import Mathlib

/-!
Shallow embedding of `src/grabber.py`: a script that walks a Google Drive
folder tree, extracts a thumbnail frame from each video, uploads it, and
appends one row per video to a Google Sheet ledger.

External collaborators (Drive listing/download/upload, Sheets append,
OpenCV decoding, `os.remove`) are modelled by an `Oracle` of response
functions; the control flow of the Python functions `append_to_sheet`,
`process_video` and `traverse_folder` is translated line by line.
-/

namespace Grabber

/-- A ledger row as returned by `process_video`:
`(thumbnail_name, original_path, webViewLink)`. -/
abbrev Row := String × String × String

/-- Responses of the external services and of the local filesystem, keyed by
file id (or, for `rmFails`, by local path).

* `listFails fid`: `drive_service.files().list` for folder `fid` raises `HttpError`.
* `downloadFails vid`: the chunked download of video `vid` raises `HttpError`.
* `fps vid`: the value `cv2.VideoCapture(...).get(cv2.CAP_PROP_FPS)` returns
  (a float; OpenCV returns `0.0` when the frame rate is unavailable).
* `readOk vid`: `vidcap.read()` after the seek returns a usable image.
* `uploadFails vid`: `drive_service.files().create` for the thumbnail raises
  `HttpError`.
* `link vid`: the `webViewLink` the upload response carries.  The Drive API
  stores the file under the requested `name`, so the `name` field of the
  response equals the requested thumbnail name.
* `rmFails p`: `os.remove p` raises. -/
structure Oracle where
  listFails : String → Bool
  downloadFails : String → Bool
  fps : String → ℚ
  readOk : String → Bool
  uploadFails : String → Bool
  link : String → String
  rmFails : String → Bool

/-- Python `int()` on a rational: truncation towards zero. -/
def pyInt (q : ℚ) : ℤ :=
  if 0 ≤ q.num then ((q.num.toNat / q.den : ℕ) : ℤ)
  else -((q.num.natAbs / q.den : ℕ) : ℤ)

/-- Index of the last occurrence of `c` in `l`, or `-1` when `c` does not
occur: the value of Python `str.rfind`. -/
def lastIdxAux (c : Char) : List Char → ℕ → ℤ → ℤ
  | [], _, acc => acc
  | x :: xs, i, acc => lastIdxAux c xs (i + 1) (if x = c then (i : ℤ) else acc)

/-- Python `p.rfind(c)`. -/
def lastIdx (c : Char) (l : List Char) : ℤ := lastIdxAux c l 0 (-1)

/-- The root part of `os.path.splitext` (posix): split at the last dot that
comes after the last `/` and after at least one non-dot character of the
basename; otherwise return the whole string. -/
def splitextRoot (p : String) : String :=
  let l := p.toList
  let sepIndex := lastIdx '/' l
  let dotIndex := lastIdx '.' l
  if dotIndex > sepIndex then
    if (List.range l.length).any
        (fun i => decide (sepIndex < (i : ℤ)) && decide ((i : ℤ) < dotIndex)
          && decide (l.getD i '.' ≠ '.')) then
      String.mk (l.take dotIndex.toNat)
    else p
  else p

/-- The thumbnail display name built at line 141 of the source:
`f"{os.path.splitext(file_name)[0]}_Thumbnail.jpg"`. -/
def thumbnail_name (file_name : String) : String :=
  splitextRoot file_name ++ "_Thumbnail.jpg"

/-- Local path of the downloaded video: `f"temp_{file_name}"`. -/
def temp_video_path (file_name : String) : String := "temp_" ++ file_name

/-- Local path of the thumbnail: `f"temp_{thumbnail_name}"`. -/
def thumbnail_path (file_name : String) : String :=
  "temp_" ++ thumbnail_name file_name

/-- Local filesystem state: the list of temporary files that exist. -/
abbrev FS := List String

/-- Creating (or overwriting) file `p`. -/
def fsCreate (fs : FS) (p : String) : FS := if p ∈ fs then fs else fs ++ [p]

/-- One `if os.path.exists(p): os.remove(p)` step.  Returns the filesystem
afterwards and whether `os.remove` raised (in which case the file stays). -/
def removeStep (rm : String → Bool) (p : String) (fs : FS) : FS × Bool :=
  if p ∈ fs then (if rm p then (fs, true) else (fs.erase p, false))
  else (fs, false)

/-- The `finally` block of `process_video` (source lines 167-175): inside one
`try`, remove the temp video (when its variable is set and the file exists),
then the thumbnail; the first raise aborts the rest and is caught by
`except Exception`.  Returns the intermediate filesystem states, the final
filesystem, and whether a removal raised. -/
def cleanup_run (rm : String → Bool) (vpath tpath : Option String) (fs : FS) :
    List FS × FS × Bool :=
  match vpath with
  | none =>
    match tpath with
    | none => ([], fs, false)
    | some t =>
      let r := removeStep rm t fs
      ([r.1], r.1, r.2)
  | some v =>
    let r1 := removeStep rm v fs
    if r1.2 then ([r1.1], r1.1, true)
    else
      match tpath with
      | none => ([r1.1], r1.1, false)
      | some t =>
        let r2 := removeStep rm t r1.1
        ([r1.1, r2.1], r2.1, r2.2)

/-- Everything one call of `process_video` does, beyond its return value:
the upload requests it issues, the uploads that succeed, the frame index it
seeks to, and the trace of local filesystem states. -/
structure PVResult where
  row : Option Row
  uploadsAttempted : List String
  uploadsDone : List String
  seeks : List ℤ
  states : List FS
  finalFs : FS
  cleanupRaised : Bool
deriving DecidableEq

/-- Translation of `process_video` (source lines 93-175).  `vid`/`vname` are
the video entry's id and name, `cur` the `folder_path` argument, `fs0` the
local filesystem on entry.  Branches in source order: `HttpError` during the
chunked download; the `not fps or fps == 0` guard (for a float both tests
mean `fps == 0.0`); `vidcap.read()` failing after `set(CAP_PROP_POS_FRAMES,
int(fps * CAPTURE_TIMESTAMP_SECONDS))`; `HttpError` during the thumbnail
upload; success.  Every branch ends in the `finally` cleanup. -/
def process_video (o : Oracle) (ts : ℚ) (vid vname cur : String) (fs0 : FS) :
    PVResult :=
  let vp := temp_video_path vname
  if o.downloadFails vid then
    let c := cleanup_run o.rmFails none none fs0
    { row := none, uploadsAttempted := [], uploadsDone := [], seeks := [],
      states := [fs0] ++ c.1, finalFs := c.2.1, cleanupRaised := c.2.2 }
  else
    let fs1 := fsCreate fs0 vp
    if o.fps vid = 0 then
      let c := cleanup_run o.rmFails (some vp) none fs1
      { row := none, uploadsAttempted := [], uploadsDone := [], seeks := [],
        states := [fs0, fs1] ++ c.1, finalFs := c.2.1, cleanupRaised := c.2.2 }
    else
      let frame_id := pyInt (o.fps vid * ts)
      if o.readOk vid = false then
        let c := cleanup_run o.rmFails (some vp) none fs1
        { row := none, uploadsAttempted := [], uploadsDone := [],
          seeks := [frame_id], states := [fs0, fs1] ++ c.1,
          finalFs := c.2.1, cleanupRaised := c.2.2 }
      else
        let tn := thumbnail_name vname
        let tp := thumbnail_path vname
        let fs2 := fsCreate fs1 tp
        let c := cleanup_run o.rmFails (some vp) (some tp) fs2
        if o.uploadFails vid then
          { row := none, uploadsAttempted := [tn], uploadsDone := [],
            seeks := [frame_id], states := [fs0, fs1, fs2] ++ c.1,
            finalFs := c.2.1, cleanupRaised := c.2.2 }
        else
          { row := some (tn, cur, o.link vid), uploadsAttempted := [tn],
            uploadsDone := [tn], seeks := [frame_id],
            states := [fs0, fs1, fs2] ++ c.1, finalFs := c.2.1,
            cleanupRaised := c.2.2 }

/-- Outcome of one `append_to_sheet` call: whether the row was written, how
many append attempts were made, and the sequence of `time.sleep` waits. -/
structure AppendResult where
  written : Bool
  attempts : ℕ
  waits : List ℕ
deriving DecidableEq

/-- Source line 67: `max_retries = 5`. -/
def max_retries : ℕ := 5

/-- The `for attempt in range(max_retries)` loop of `append_to_sheet`
(source lines 70-91).  `outcomes k = true` means the append API call on
attempt index `k` (0-based) succeeds; a false outcome is one of the caught
exceptions (`HttpError`, `TimeoutError`, socket timeout).  On failure the
loop breaks without sleeping when `attempt + 1 == max_retries`, otherwise
sleeps `backoff` and doubles it. -/
def append_loop (outcomes : ℕ → Bool) : ℕ → ℕ → ℕ → List ℕ → AppendResult
  | 0, attempt, _, waits => ⟨false, attempt, waits⟩
  | fuel + 1, attempt, backoff, waits =>
    if outcomes attempt then ⟨true, attempt + 1, waits⟩
    else if attempt + 1 = max_retries then ⟨false, attempt + 1, waits⟩
    else append_loop outcomes fuel (attempt + 1) (backoff * 2)
      (waits ++ [backoff])

/-- Translation of `append_to_sheet` (source lines 60-91): the
`if not data_row: return` guard, then the retry loop with initial backoff 2. -/
def append_to_sheet (outcomes : ℕ → Bool) (data_row : Option Row) :
    AppendResult :=
  match data_row with
  | none => ⟨false, 0, []⟩
  | some _ => append_loop outcomes max_retries 0 2 []

/-- A node of the remote folder tree, as the listing API reports it.
`file` covers every non-folder entry (videos and others); its `mimeType` is
the optional `mimeType` field of the listing metadata (`item.get("mimeType",
"")` defaults a missing field to `""`).  A `folder` carries the folder mime
type and its children grouped into the pages the paginated listing API would
serve (`files().list` returns one page per call, with a `nextPageToken` for
the rest). -/
inductive Node where
  | file (id name : String) (mimeType : Option String) : Node
  | folder (id name : String) (pages : List (List Node)) : Node

/-- The folder mime type constant compared at source line 193. -/
def folderMime : String := "application/vnd.google-apps.folder"

/-- Python `s.startswith(pre)`. -/
def startswith (s pre : String) : Bool := pre.toList.isPrefixOf s.toList

/-- Entry id as listed. -/
def Node.nid : Node → String
  | .file i _ _ => i
  | .folder i _ _ => i

/-- Entry display name as listed. -/
def Node.dname : Node → String
  | .file _ n _ => n
  | .folder _ n _ => n

/-- The `mimeType` field of the listing metadata.  Folders always carry the
folder mime type; for other entries the field may be absent. -/
def Node.mime : Node → Option String
  | .file _ _ mt => mt
  | .folder _ _ _ => some folderMime

/-- The externally visible actions of a (partial) run, in order of
occurrence: folders whose listing was requested, video ids handed to
`process_video`, non-null rows handed to `append_to_sheet` (each such row
starts the append API loop), thumbnail upload requests, successful uploads,
and the frame indices seeked to. -/
structure Effects where
  visitedFolders : List String
  visitedVideos : List String
  submitted : List Row
  uploadsAttempted : List String
  uploadsDone : List String
  seeks : List ℤ
deriving DecidableEq

/-- No actions. -/
def Effects.none : Effects := ⟨[], [], [], [], [], []⟩

/-- Sequential composition of action lists. -/
instance : Append Effects :=
  ⟨fun a b =>
    ⟨a.visitedFolders ++ b.visitedFolders, a.visitedVideos ++ b.visitedVideos,
     a.submitted ++ b.submitted, a.uploadsAttempted ++ b.uploadsAttempted,
     a.uploadsDone ++ b.uploadsDone, a.seeks ++ b.seeks⟩⟩

/-- The actions of `process_video(item)` followed by
`append_to_sheet(log_data)` (source lines 196-198): the video is visited,
its uploads and seeks happen, and its row is submitted to the ledger API
unless the pipeline returned `None` (`if not data_row: return`). -/
def pvEffects (vid : String) (r : PVResult) : Effects :=
  { visitedFolders := [], visitedVideos := [vid],
    submitted := match r.row with | Option.none => [] | some row => [row],
    uploadsAttempted := r.uploadsAttempted, uploadsDone := r.uploadsDone,
    seeks := r.seeks }

mutual

/-- Translation of `traverse_folder` (source lines 177-201) on a folder
node.  The `try` wraps the single `files().list` call: on `HttpError` the
body is skipped.  The call carries no `pageToken`, so `items` is the FIRST
page of the listing only (`results.get("files", [])`); the `nextPageToken`
the code asks for in `fields` is never used.  Called on a non-folder node it
produces nothing (listing children of a non-folder finds none). -/
def traverse_folder (o : Oracle) (ts : ℚ) : Node → String → Effects
  | .file _ _ _, _ => Effects.none
  | .folder fid _ pages, cur =>
    let base : Effects := { Effects.none with visitedFolders := [fid] }
    if o.listFails fid then base
    else base ++ traverse_items o ts (pages.headD []) cur
termination_by n _ => (sizeOf n, 0)
decreasing_by
  cases pages <;> simp <;> omega

/-- The `for item in items` loop of `traverse_folder`. -/
def traverse_items (o : Oracle) (ts : ℚ) : List Node → String → Effects
  | [], _ => Effects.none
  | item :: rest, cur => handle_one o ts item cur ++ traverse_items o ts rest cur
termination_by l _ => (sizeOf l, 2)

/-- One iteration of the item loop (source lines 190-198): build
`item_path`, default a missing `mimeType` to `""`, recurse on folders with
`item_path`, run the per-video pipeline on `video/*` entries with the
CURRENT path, ignore everything else. -/
def handle_one (o : Oracle) (ts : ℚ) (item : Node) (cur : String) : Effects :=
  let mime := (Node.mime item).getD ""
  if mime = folderMime then
    traverse_folder o ts item (cur ++ "/" ++ item.dname)
  else if startswith mime "video/" then
    pvEffects item.nid (process_video o ts item.nid item.dname cur [])
  else Effects.none
termination_by (sizeOf item, 1)

end

/-- Both runs of the program over an unchanged tree: the effects of the
second `traverse_folder` call follow those of the first, so the ledger and
the thumbnail folder accumulate both runs' outputs.  `traverse_folder` reads
no state written by an earlier run (no dedup key), so both runs are the same
function of the same tree. -/
def run_twice (o : Oracle) (ts : ℚ) (root : Node) (rootName : String) :
    Effects :=
  traverse_folder o ts root rootName ++ traverse_folder o ts root rootName

/-- An environment where every remote call succeeds, every video has frame
rate 30, and local removals succeed. -/
def okOracle : Oracle :=
  { listFails := fun _ => false, downloadFails := fun _ => false,
    fps := fun _ => 30, readOk := fun _ => true, uploadFails := fun _ => false,
    link := fun v => "link-" ++ v, rmFails := fun _ => false }

/-- A root folder whose listing spans two pages; the video `b.mp4` is on the
second page, behind the continuation token. -/
def twoPageRoot : Node :=
  Node.folder "root" "Root"
    [[Node.file "a" "a.mp4" (some "video/mp4")],
     [Node.file "b" "b.mp4" (some "video/mp4")]]

/-- A root folder with a single one-page listing holding one video. -/
def onePageRoot : Node :=
  Node.folder "root" "Root" [[Node.file "a" "a.mp4" (some "video/mp4")]]

/-- Environment of `okOracle` except that every local `os.remove` raises. -/
def badRmOracle : Oracle := { okOracle with rmFails := fun _ => true }

/-- Environment of `okOracle` except that every video reports frame rate
zero. -/
def zeroFpsOracle : Oracle := { okOracle with fps := fun _ => 0 }

/-- Environment where listing folder `f` raises, downloading video `d`
raises, and uploading the thumbnail of video `u` raises; everything else
succeeds. -/
def badListDlUpOracle : Oracle :=
  { okOracle with
    listFails := fun fid => fid == "f",
    downloadFails := fun vid => vid == "d",
    uploadFails := fun vid => vid == "u" }

theorem Effects.append_eq (a b : Effects) :
    a ++ b =
      ⟨a.visitedFolders ++ b.visitedFolders, a.visitedVideos ++ b.visitedVideos,
       a.submitted ++ b.submitted, a.uploadsAttempted ++ b.uploadsAttempted,
       a.uploadsDone ++ b.uploadsDone, a.seeks ++ b.seeks⟩ := rfl

theorem Effects.none_append (a : Effects) : Effects.none ++ a = a := rfl

theorem Effects.append_none (a : Effects) : a ++ Effects.none = a := by
  cases a
  simp [Effects.append_eq, Effects.none]

theorem Effects.append_assoc (a b c : Effects) :
    a ++ b ++ c = a ++ (b ++ c) := by
  cases a; cases b; cases c
  simp [Effects.append_eq]

theorem traverse_items_append (o : Oracle) (ts : ℚ) (xs ys : List Node)
    (cur : String) :
    traverse_items o ts (xs ++ ys) cur =
      traverse_items o ts xs cur ++ traverse_items o ts ys cur := by
  induction xs with
  | nil => simp [traverse_items, Effects.none_append]
  | cons x xs ih => simp [traverse_items, ih, Effects.append_assoc]

theorem append_loop_attempts_le (outcomes : ℕ → Bool) (fuel attempt backoff : ℕ)
    (waits : List ℕ) :
    (append_loop outcomes fuel attempt backoff waits).attempts ≤ attempt + fuel := by
  induction fuel generalizing attempt backoff waits with
  | zero => simp [append_loop]
  | succ n ih =>
    simp only [append_loop]
    split
    · simp
    · split
      · simp
      · exact le_trans (ih (attempt + 1) (backoff * 2) (waits ++ [backoff]))
          (by omega)

/-- C2: for a non-empty row, `append_to_sheet` makes at most 5 attempts;
with transient failures on attempts 1-4 and success on attempt 5 the row is
written after waits of 2, 4, 8 and 16 time units (30 in total); with
failures on all 5 attempts no row is written, the waits are again exactly
2, 4, 8, 16 (none after the 5th failure), and the call returns normally
(all failures are of the caught transient classes). -/
theorem C2_append_retry_policy (outcomes : ℕ → Bool) (r : Row) :
    (append_to_sheet outcomes (some r)).attempts ≤ 5 ∧
    append_to_sheet (fun k => k == 4) (some r) =
      { written := true, attempts := 5, waits := [2, 4, 8, 16] } ∧
    (append_to_sheet (fun k => k == 4) (some r)).waits.sum = 30 ∧
    append_to_sheet (fun _ => false) (some r) =
      { written := false, attempts := 5, waits := [2, 4, 8, 16] } := by
  refine ⟨?_, rfl, rfl, rfl⟩
  exact append_loop_attempts_le outcomes max_retries 0 2 []

/-- C3: when the local removals themselves succeed, every exit path of
`process_video` (download error, zero frame rate, failed frame read, upload
error, success) leaves no temporary file behind, and at every moment of the
invocation the local filesystem holds at most the one temp video file and
the one temp thumbnail file (every intermediate state is a sublist of
`[temp_video_path, thumbnail_path]`). -/
theorem C3_temp_files_cleanup (o : Oracle) (ts : ℚ) (vid vname cur : String)
    (h : ∀ p, o.rmFails p = false) :
    (process_video o ts vid vname cur []).finalFs = [] ∧
    ∀ s ∈ (process_video o ts vid vname cur []).states,
      List.Sublist s [temp_video_path vname, thumbnail_path vname] := by
  have hsub1 : List.Sublist ([] : List String)
      [temp_video_path vname, thumbnail_path vname] := List.nil_sublist _
  have hsub2 : List.Sublist [temp_video_path vname]
      [temp_video_path vname, thumbnail_path vname] := by
    exact List.cons_sublist_cons.mpr (List.nil_sublist _)
  have hsub3 : List.Sublist [thumbnail_path vname]
      [temp_video_path vname, thumbnail_path vname] :=
    List.Sublist.cons _ (List.Sublist.refl _)
  have hsub4 : List.Sublist [temp_video_path vname, thumbnail_path vname]
      [temp_video_path vname, thumbnail_path vname] := List.Sublist.refl _
  by_cases hd : o.downloadFails vid
  · refine ⟨?_, ?_⟩ <;>
      simp [process_video, hd, cleanup_run, removeStep, fsCreate, h, hsub1]
  · by_cases hf : o.fps vid = 0
    · refine ⟨?_, ?_⟩ <;>
        simp [process_video, hd, hf, cleanup_run, removeStep, fsCreate, h,
          hsub1, hsub2]
    · by_cases hr : o.readOk vid = false
      · refine ⟨?_, ?_⟩ <;>
          simp [process_video, hd, hf, hr, cleanup_run, removeStep, fsCreate,
            h, hsub1, hsub2]
      · by_cases hu : o.uploadFails vid <;>
          by_cases htv : thumbnail_path vname = temp_video_path vname <;>
          · refine ⟨?_, ?_⟩ <;>
              simp [process_video, hd, hf, hr, hu, cleanup_run, removeStep,
                fsCreate, h, htv, hsub1, hsub2, hsub3, hsub4]

/-- C3 witness: a concrete run (all remote calls succeed, removals succeed)
of the pipeline on video `a.mp4` ends with an empty temp directory and never
holds more than the two temp files. -/
theorem C3_temp_files_cleanup_witness :
    (∀ p, okOracle.rmFails p = false) ∧
    ((process_video okOracle 2 "v" "a.mp4" "Root" []).finalFs = [] ∧
      ∀ s ∈ (process_video okOracle 2 "v" "a.mp4" "Root" []).states,
        List.Sublist s [temp_video_path "a.mp4", thumbnail_path "a.mp4"]) :=
  ⟨fun _ => rfl,
    C3_temp_files_cleanup okOracle 2 "v" "a.mp4" "Root" (fun _ => rfl)⟩

/-- C10: a raising `os.remove` during the `finally` cleanup is caught inside
`process_video`: the returned value (the row, or null) is the one computed
before cleanup, independent of which removals fail, and no exception
reaches the tree walker (the pipeline still returns a `PVResult`); when the
temp video file was created and its removal raises, that file remains on
disk (and the raise is recorded as caught). -/
theorem C10_cleanup_error_contained (o : Oracle) (ts : ℚ)
    (vid vname cur : String) (fs0 : FS) :
    (∀ rm : String → Bool,
      (process_video { o with rmFails := rm } ts vid vname cur fs0).row =
        (process_video o ts vid vname cur fs0).row) ∧
    (o.downloadFails vid = false → o.rmFails (temp_video_path vname) = true →
      temp_video_path vname ∈ (process_video o ts vid vname cur []).finalFs ∧
      (process_video o ts vid vname cur []).cleanupRaised = true) := by
  constructor
  · intro rm
    by_cases hd : o.downloadFails vid <;>
      by_cases hf : o.fps vid = 0 <;>
      by_cases hr : o.readOk vid = false <;>
      by_cases hu : o.uploadFails vid <;>
        simp [process_video, hd, hf, hr, hu]
  · intro hd hrm
    by_cases hf : o.fps vid = 0
    · refine ⟨?_, ?_⟩ <;>
        simp [process_video, hd, hf, cleanup_run, removeStep, fsCreate, hrm]
    · by_cases hr : o.readOk vid = false
      · refine ⟨?_, ?_⟩ <;>
          simp [process_video, hd, hf, hr, cleanup_run, removeStep, fsCreate,
            hrm]
      · by_cases hu : o.uploadFails vid <;>
          by_cases htv : thumbnail_path vname = temp_video_path vname <;>
          · refine ⟨?_, ?_⟩ <;>
              simp [process_video, hd, hf, hr, hu, cleanup_run, removeStep,
                fsCreate, htv, hrm]

/-- C10 witness: with all removals raising, the pipeline on `a.mp4` returns
the same row as with removals succeeding, the temp video file is left on
disk, and the raise is caught. -/
theorem C10_cleanup_error_contained_witness :
    ((process_video { badRmOracle with rmFails := fun _ => false } 2 "v"
        "a.mp4" "Root" []).row =
      (process_video badRmOracle 2 "v" "a.mp4" "Root" []).row) ∧
    badRmOracle.downloadFails "v" = false ∧
    badRmOracle.rmFails (temp_video_path "a.mp4") = true ∧
    (temp_video_path "a.mp4" ∈
        (process_video badRmOracle 2 "v" "a.mp4" "Root" []).finalFs ∧
      (process_video badRmOracle 2 "v" "a.mp4" "Root" []).cleanupRaised =
        true) :=
  ⟨(C10_cleanup_error_contained badRmOracle 2 "v" "a.mp4" "Root" []).1
      (fun _ => false),
    rfl, rfl,
    (C10_cleanup_error_contained badRmOracle 2 "v" "a.mp4" "Root" []).2
      rfl rfl⟩

theorem video_mime_ne_folder (m : String)
    (hm : startswith m "video/" = true) : ¬ m = folderMime := by
  intro h
  subst h
  have hfalse : startswith folderMime "video/" = false := rfl
  rw [hfalse] at hm
  exact Bool.false_ne_true hm

/-- C9: a listing entry with no `mimeType` field is classified through the
default `item.get("mimeType", "")`: the empty string is neither the folder
mime type nor a `video/*` type, so the entry is neither recursed into nor
processed, and the iteration does nothing for it. -/
theorem C9_missing_mime_ignored (o : Oracle) (ts : ℚ) (id name cur : String) :
    handle_one o ts (Node.file id name none) cur = Effects.none ∧
    (Node.file id name none).mime.getD "" = "" := by
  refine ⟨?_, rfl⟩
  have h1 : ¬ ("" : String) = folderMime := by decide
  have h2 : startswith "" "video/" = false := rfl
  simp [handle_one, Node.mime, h1, h2]

theorem pyInt_eq_floor (q : ℚ) (h : 0 ≤ q) : pyInt q = ⌊q⌋ := by
  have hn : 0 ≤ q.num := Rat.num_nonneg.mpr h
  rw [pyInt, if_pos hn, Rat.floor_def]
  calc ((q.num.toNat / q.den : ℕ) : ℤ)
      = (q.num.toNat : ℤ) / (q.den : ℤ) := Int.ofNat_ediv _ _
    _ = q.num / (q.den : ℤ) := by rw [Int.toNat_of_nonneg hn]

/-- C6: when the frame rate comes back zero (OpenCV reports `0.0` both for
a zero and for an unavailable frame rate), the pipeline returns null with no
retry, issues no thumbnail upload request, performs no seek, and the
append guard turns the null into no ledger request; the item loop then
simply continues with the remaining siblings. -/
theorem C6_zero_fps_aborts (o : Oracle) (ts : ℚ) (vid vname cur m : String)
    (rest : List Node) (hf : o.fps vid = 0)
    (hm : startswith m "video/" = true) :
    (process_video o ts vid vname cur []).row = none ∧
    (process_video o ts vid vname cur []).uploadsAttempted = [] ∧
    (process_video o ts vid vname cur []).seeks = [] ∧
    pvEffects vid (process_video o ts vid vname cur []) =
      { Effects.none with visitedVideos := [vid] } ∧
    traverse_items o ts (Node.file vid vname (some m) :: rest) cur =
      { Effects.none with visitedVideos := [vid] } ++
        traverse_items o ts rest cur := by
  have hpv : pvEffects vid (process_video o ts vid vname cur []) =
      { Effects.none with visitedVideos := [vid] } := by
    by_cases hd : o.downloadFails vid <;>
      simp [pvEffects, process_video, hd, hf, Effects.none]
  have hrow : (process_video o ts vid vname cur []).row = none := by
    by_cases hd : o.downloadFails vid <;> simp [process_video, hd, hf]
  have hup : (process_video o ts vid vname cur []).uploadsAttempted = [] := by
    by_cases hd : o.downloadFails vid <;> simp [process_video, hd, hf]
  have hseek : (process_video o ts vid vname cur []).seeks = [] := by
    by_cases hd : o.downloadFails vid <;> simp [process_video, hd, hf]
  have hh : handle_one o ts (Node.file vid vname (some m)) cur =
      { Effects.none with visitedVideos := [vid] } := by
    rw [handle_one]
    simp only [Node.mime, Node.nid, Node.dname, Option.getD_some]
    rw [if_neg (video_mime_ne_folder m hm), if_pos hm]
    exact hpv
  refine ⟨hrow, hup, hseek, hpv, ?_⟩
  rw [traverse_items, hh]

/-- C6 witness: a concrete video with frame rate 0 is aborted with no
upload, no seek, no ledger request, and the loop moves on to the next
sibling. -/
theorem C6_zero_fps_aborts_witness :
    zeroFpsOracle.fps "z" = 0 ∧ startswith "video/mp4" "video/" = true ∧
    ((process_video zeroFpsOracle 2 "z" "z.mp4" "Root" []).row = none ∧
      (process_video zeroFpsOracle 2 "z" "z.mp4" "Root" []).uploadsAttempted =
        [] ∧
      (process_video zeroFpsOracle 2 "z" "z.mp4" "Root" []).seeks = [] ∧
      pvEffects "z" (process_video zeroFpsOracle 2 "z" "z.mp4" "Root" []) =
        { Effects.none with visitedVideos := ["z"] } ∧
      traverse_items zeroFpsOracle 2
          (Node.file "z" "z.mp4" (some "video/mp4") ::
            [Node.file "g" "g.mp4" (some "video/mp4")]) "Root" =
        { Effects.none with visitedVideos := ["z"] } ++
          traverse_items zeroFpsOracle 2
            [Node.file "g" "g.mp4" (some "video/mp4")] "Root") :=
  ⟨rfl, rfl,
    C6_zero_fps_aborts zeroFpsOracle 2 "z" "z.mp4" "Root" "video/mp4"
      [Node.file "g" "g.mp4" (some "video/mp4")] rfl rfl⟩

/-- C7: for a video that passes the frame-rate guard, the frame index the
pipeline seeks to before decoding is `int(fps * CAPTURE_TIMESTAMP_SECONDS)`,
which for the nonnegative frame rates and timestamps of real videos is
`floor(fps * timestamp)`; in particular frame rate 30 with timestamp 2
yields frame index 60. -/
theorem C7_frame_index (o : Oracle) (ts : ℚ) (vid vname cur : String)
    (fs0 : FS) (hd : o.downloadFails vid = false) (hf : ¬ o.fps vid = 0)
    (h0 : 0 ≤ o.fps vid) (hts : 0 ≤ ts) :
    (process_video o ts vid vname cur fs0).seeks = [⌊o.fps vid * ts⌋] ∧
    pyInt ((30 : ℚ) * 2) = 60 := by
  constructor
  · have hfl : pyInt (o.fps vid * ts) = ⌊o.fps vid * ts⌋ :=
      pyInt_eq_floor _ (mul_nonneg h0 hts)
    by_cases hr : o.readOk vid = false <;> by_cases hu : o.uploadFails vid <;>
      simp [process_video, hd, hf, hr, hu, hfl]
  · have h60 : ((30 : ℚ) * 2) = 60 := by norm_num
    rw [h60]
    rfl

/-- C7 witness: the concrete pipeline run with frame rate 30 and timestamp
2 seeks to frame 60. -/
theorem C7_frame_index_witness :
    okOracle.downloadFails "v" = false ∧ ¬ okOracle.fps "v" = 0 ∧
    0 ≤ okOracle.fps "v" ∧ 0 ≤ (2 : ℚ) ∧
    ((process_video okOracle 2 "v" "a.mp4" "Root" []).seeks =
        [⌊okOracle.fps "v" * 2⌋] ∧
      pyInt ((30 : ℚ) * 2) = 60) :=
  ⟨rfl, by decide, by decide, by decide,
    C7_frame_index okOracle 2 "v" "a.mp4" "Root" [] rfl (by decide)
      (by decide) (by decide)⟩

/-- C5: for a successfully processed video, exactly one ledger row is
submitted, and it is `(thumbnail name, parent path, upload link)`: the name
is the video name's stem plus `_Thumbnail.jpg`, the path is the
`"/"`-joined display-name path of the video's PARENT folder (the walker
hands the video the current path, while sub-folders get `path + "/" +
name`), and the link is the `webViewLink` returned by the upload. -/
theorem C5_ledger_row_content (o : Oracle) (ts : ℚ)
    (rid rname fid fname vid vname m cur : String)
    (hl1 : o.listFails rid = false) (hl2 : o.listFails fid = false)
    (hm : startswith m "video/" = true)
    (hd : o.downloadFails vid = false) (hf : ¬ o.fps vid = 0)
    (hr : o.readOk vid = true) (hu : o.uploadFails vid = false) :
    traverse_folder o ts
        (Node.folder rid rname
          [[Node.folder fid fname [[Node.file vid vname (some m)]]]]) cur =
      { visitedFolders := [rid, fid], visitedVideos := [vid],
        submitted :=
          [(thumbnail_name vname, cur ++ "/" ++ fname, o.link vid)],
        uploadsAttempted := [thumbnail_name vname],
        uploadsDone := [thumbnail_name vname],
        seeks := [pyInt (o.fps vid * ts)] } ∧
    thumbnail_name vname = splitextRoot vname ++ "_Thumbnail.jpg" := by
  refine ⟨?_, rfl⟩
  have hmf := video_mime_ne_folder m hm
  simp [traverse_folder, traverse_items, handle_one, pvEffects, process_video,
    hl1, hl2, hm, hmf, hd, hf, hr, hu, Node.mime, Node.nid, Node.dname,
    Effects.none, Effects.append_eq]

/-- C5 witness: concrete folder tree `Root/Clips/a.mp4`, all remote calls
succeeding: one row `("a_Thumbnail.jpg", "Root/Clips", "link-a")`. -/
theorem C5_ledger_row_content_witness :
    okOracle.listFails "root" = false ∧ okOracle.listFails "clips" = false ∧
    startswith "video/mp4" "video/" = true ∧
    okOracle.downloadFails "a" = false ∧ ¬ okOracle.fps "a" = 0 ∧
    okOracle.readOk "a" = true ∧ okOracle.uploadFails "a" = false ∧
    (traverse_folder okOracle 2
        (Node.folder "root" "Root"
          [[Node.folder "clips" "Clips"
            [[Node.file "a" "a.mp4" (some "video/mp4")]]]]) "Root" =
      { visitedFolders := ["root", "clips"], visitedVideos := ["a"],
        submitted :=
          [(thumbnail_name "a.mp4", "Root" ++ "/" ++ "Clips",
            okOracle.link "a")],
        uploadsAttempted := [thumbnail_name "a.mp4"],
        uploadsDone := [thumbnail_name "a.mp4"],
        seeks := [pyInt (okOracle.fps "a" * 2)] } ∧
      thumbnail_name "a.mp4" = splitextRoot "a.mp4" ++ "_Thumbnail.jpg") :=
  ⟨rfl, rfl, rfl, rfl, by decide, rfl, rfl,
    C5_ledger_row_content okOracle 2 "root" "Root" "clips" "Clips" "a"
      "a.mp4" "video/mp4" "Root" rfl rfl rfl rfl (by decide) rfl rfl⟩

/-- C4: per-folder and per-video errors are contained at their own
granularity.  A listing failure on a folder contributes only that folder's
visit — its whole subtree is skipped with no retry — while the siblings
before and after it contribute exactly what they contribute in isolation.
A download failure on a video leaves a null result: the video is visited
but nothing is submitted, uploaded or seeked.  An upload failure likewise
yields a null result and no ledger submission.  In every case the
traversal of the remaining items continues unaffected. -/
theorem C4_failure_isolation (o : Oracle) (ts : ℚ) (cur : String)
    (xs ys : List Node) :
    (∀ fid fname pages, o.listFails fid = true →
      traverse_items o ts (xs ++ Node.folder fid fname pages :: ys) cur =
        traverse_items o ts xs cur ++
          ({ Effects.none with visitedFolders := [fid] } ++
            traverse_items o ts ys cur)) ∧
    (∀ vid vname m, startswith m "video/" = true →
      o.downloadFails vid = true →
      (process_video o ts vid vname cur []).row = none ∧
      traverse_items o ts (xs ++ Node.file vid vname (some m) :: ys) cur =
        traverse_items o ts xs cur ++
          ({ Effects.none with visitedVideos := [vid] } ++
            traverse_items o ts ys cur)) ∧
    (∀ vid vname m, startswith m "video/" = true →
      o.uploadFails vid = true →
      (process_video o ts vid vname cur []).row = none ∧
      (pvEffects vid (process_video o ts vid vname cur [])).submitted = [] ∧
      traverse_items o ts (xs ++ Node.file vid vname (some m) :: ys) cur =
        traverse_items o ts xs cur ++
          (pvEffects vid (process_video o ts vid vname cur []) ++
            traverse_items o ts ys cur)) := by
  refine ⟨?_, ?_, ?_⟩
  · intro fid fname pages hfid
    rw [traverse_items_append, traverse_items]
    have hh : handle_one o ts (Node.folder fid fname pages) cur =
        { Effects.none with visitedFolders := [fid] } := by
      rw [handle_one]
      simp only [Node.mime, Node.dname, Option.getD_some, if_pos rfl]
      rw [traverse_folder]
      simp [hfid]
    rw [hh]
  · intro vid vname m hm hdl
    have hrow : (process_video o ts vid vname cur []).row = none := by
      simp [process_video, hdl]
    refine ⟨hrow, ?_⟩
    rw [traverse_items_append, traverse_items]
    have hh : handle_one o ts (Node.file vid vname (some m)) cur =
        { Effects.none with visitedVideos := [vid] } := by
      rw [handle_one]
      simp only [Node.mime, Node.nid, Node.dname, Option.getD_some]
      rw [if_neg (video_mime_ne_folder m hm), if_pos hm]
      simp [pvEffects, process_video, hdl, Effects.none]
    rw [hh]
  · intro vid vname m hm hup
    have hrow : (process_video o ts vid vname cur []).row = none := by
      by_cases hd : o.downloadFails vid <;> by_cases hf : o.fps vid = 0 <;>
        by_cases hr : o.readOk vid = false <;>
        simp [process_video, hd, hf, hr, hup]
    refine ⟨hrow, by simp [pvEffects, hrow], ?_⟩
    rw [traverse_items_append, traverse_items]
    have hh : handle_one o ts (Node.file vid vname (some m)) cur =
        pvEffects vid (process_video o ts vid vname cur []) := by
      rw [handle_one]
      simp only [Node.mime, Node.nid, Node.dname, Option.getD_some]
      rw [if_neg (video_mime_ne_folder m hm), if_pos hm]
    rw [hh]

/-- C4 witness: a root listing `[bad folder, bad video (download), bad
video (upload), good video]` where the respective failures are injected:
each bad item is isolated exactly as the theorem states. -/
theorem C4_failure_isolation_witness :
    badListDlUpOracle.listFails "f" = true ∧
    startswith "video/mp4" "video/" = true ∧
    badListDlUpOracle.downloadFails "d" = true ∧
    badListDlUpOracle.uploadFails "u" = true ∧
    (traverse_items badListDlUpOracle 2
        ([Node.file "g" "g.mp4" (some "video/mp4")] ++
          Node.folder "f" "F" [[Node.file "x" "x.mp4" (some "video/mp4")]] ::
            [Node.file "g2" "g2.mp4" (some "video/mp4")]) "Root" =
      traverse_items badListDlUpOracle 2
          [Node.file "g" "g.mp4" (some "video/mp4")] "Root" ++
        ({ Effects.none with visitedFolders := ["f"] } ++
          traverse_items badListDlUpOracle 2
            [Node.file "g2" "g2.mp4" (some "video/mp4")] "Root")) ∧
    ((process_video badListDlUpOracle 2 "d" "d.mp4" "Root" []).row = none ∧
      traverse_items badListDlUpOracle 2
          ([] ++ Node.file "d" "d.mp4" (some "video/mp4") :: []) "Root" =
        traverse_items badListDlUpOracle 2 [] "Root" ++
          ({ Effects.none with visitedVideos := ["d"] } ++
            traverse_items badListDlUpOracle 2 [] "Root")) ∧
    ((process_video badListDlUpOracle 2 "u" "u.mp4" "Root" []).row = none ∧
      (pvEffects "u"
        (process_video badListDlUpOracle 2 "u" "u.mp4" "Root" [])).submitted =
        [] ∧
      traverse_items badListDlUpOracle 2
          ([] ++ Node.file "u" "u.mp4" (some "video/mp4") :: []) "Root" =
        traverse_items badListDlUpOracle 2 [] "Root" ++
          (pvEffects "u"
              (process_video badListDlUpOracle 2 "u" "u.mp4" "Root" []) ++
            traverse_items badListDlUpOracle 2 [] "Root")) :=
  ⟨rfl, rfl, rfl, rfl,
    (C4_failure_isolation badListDlUpOracle 2 "Root"
        [Node.file "g" "g.mp4" (some "video/mp4")]
        [Node.file "g2" "g2.mp4" (some "video/mp4")]).1
      "f" "F" [[Node.file "x" "x.mp4" (some "video/mp4")]] rfl,
    (C4_failure_isolation badListDlUpOracle 2 "Root" [] []).2.1
      "d" "d.mp4" "video/mp4" rfl rfl,
    (C4_failure_isolation badListDlUpOracle 2 "Root" [] []).2.2
      "u" "u.mp4" "video/mp4" rfl rfl⟩

/-- C8: the program keeps no dedup state between runs, so the second of two
runs over an unchanged tree contributes exactly the same ledger
submissions and thumbnail uploads again: after two runs every row submitted
by the first run occurs at least twice in the ledger, and every uploaded
thumbnail name at least twice in the destination folder. -/
theorem C8_not_idempotent (o : Oracle) (ts : ℚ) (root : Node) (rn : String) :
    (run_twice o ts root rn).submitted =
      (traverse_folder o ts root rn).submitted ++
        (traverse_folder o ts root rn).submitted ∧
    (run_twice o ts root rn).uploadsDone =
      (traverse_folder o ts root rn).uploadsDone ++
        (traverse_folder o ts root rn).uploadsDone ∧
    (∀ r ∈ (traverse_folder o ts root rn).submitted,
      2 ≤ (run_twice o ts root rn).submitted.count r) ∧
    (∀ u ∈ (traverse_folder o ts root rn).uploadsDone,
      2 ≤ (run_twice o ts root rn).uploadsDone.count u) := by
  refine ⟨rfl, rfl, ?_, ?_⟩
  · intro r hr
    have h1 : 0 < (traverse_folder o ts root rn).submitted.count r :=
      List.count_pos_iff.mpr hr
    show 2 ≤ List.count _ (_ ++ _)
    rw [List.count_append]
    omega
  · intro u hu
    have h1 : 0 < (traverse_folder o ts root rn).uploadsDone.count u :=
      List.count_pos_iff.mpr hu
    show 2 ≤ List.count _ (_ ++ _)
    rw [List.count_append]
    omega

/-- C8 witness: over the concrete one-video tree, the row produced by the
first run is submitted (at least) twice after two runs, and its thumbnail is
uploaded (at least) twice. -/
theorem C8_not_idempotent_witness :
    ("a_Thumbnail.jpg", "Root", "link-a") ∈
      (traverse_folder okOracle 2 onePageRoot "Root").submitted ∧
    2 ≤ (run_twice okOracle 2 onePageRoot "Root").submitted.count
      ("a_Thumbnail.jpg", "Root", "link-a") ∧
    "a_Thumbnail.jpg" ∈
      (traverse_folder okOracle 2 onePageRoot "Root").uploadsDone ∧
    2 ≤ (run_twice okOracle 2 onePageRoot "Root").uploadsDone.count
      "a_Thumbnail.jpg" := by
  have hs : (traverse_folder okOracle 2 onePageRoot "Root").submitted =
      [("a_Thumbnail.jpg", "Root", "link-a")] := by
    simp [onePageRoot, traverse_folder, traverse_items, handle_one,
      pvEffects, process_video, okOracle, Node.mime, Node.nid, Node.dname,
      folderMime, Effects.none, Effects.append_eq]
    rfl
  have hu : (traverse_folder okOracle 2 onePageRoot "Root").uploadsDone =
      ["a_Thumbnail.jpg"] := by
    simp [onePageRoot, traverse_folder, traverse_items, handle_one,
      pvEffects, process_video, okOracle, Node.mime, Node.nid, Node.dname,
      folderMime, Effects.none, Effects.append_eq]
    rfl
  have hmem : ("a_Thumbnail.jpg", "Root", "link-a") ∈
      (traverse_folder okOracle 2 onePageRoot "Root").submitted := by
    rw [hs]; exact List.mem_singleton.mpr rfl
  have hmemu : "a_Thumbnail.jpg" ∈
      (traverse_folder okOracle 2 onePageRoot "Root").uploadsDone := by
    rw [hu]; exact List.mem_singleton.mpr rfl
  exact ⟨hmem,
    (C8_not_idempotent okOracle 2 onePageRoot "Root").2.2.1 _ hmem,
    hmemu,
    (C8_not_idempotent okOracle 2 onePageRoot "Root").2.2.2 _ hmemu⟩

/-- C1: the claim fails on the code.  `traverse_folder` issues exactly one
`files().list` call per folder with no `pageToken`, requests `nextPageToken`
in `fields` but never passes it back, and iterates `results.get("files",
[])` — the first result page only.  On a root folder whose listing spans two
pages, with every remote call succeeding, the video on the second page is
never visited: traversal visits only the page-one video `a`, so it does NOT
visit every video reachable from the root. -/
theorem C1_second_page_never_visited :
    (traverse_folder okOracle 2 twoPageRoot "Root").visitedVideos = ["a"] ∧
    "b" ∉ (traverse_folder okOracle 2 twoPageRoot "Root").visitedVideos := by
  have h : (traverse_folder okOracle 2 twoPageRoot "Root").visitedVideos =
      ["a"] := by
    simp [twoPageRoot, traverse_folder, traverse_items, handle_one,
      pvEffects, process_video, okOracle, Node.mime, Node.nid, Node.dname,
      folderMime, Effects.none, Effects.append_eq]
    rfl
  refine ⟨h, ?_⟩
  rw [h]
  simp

end Grabber
